/-
Verification of the Industrial Equipment Analyzer core logic.

This file gives a shallow Lean embedding of the deterministic core of the
repository (health scoring, report generation, classification coercion,
compliance scan, and the structured-field parser with its regex fallback)
and proves the specified properties about it.

Conventions of the embedding:
* Python strings are Lean `String`s; all character-level work is done on
  `String.data : List Char`.  Case mapping is ASCII (`Char.toUpper` /
  `Char.toLower`), which agrees with Python on every string the code and
  the spec use.
* Python `x in y` on strings (substring containment) is `pyIn x y`.
* Python dict lookups `d.get(k, '')` are modelled by records whose fields
  default to `""` when the key is absent.
* External AI calls (Gemini model responses) are inputs of the embedded
  functions: an `Option String` that is `none` when the call raises and
  `some t` when it returns response text `t`; the JSON decoder
  (`json.loads` restricted to objects of the expected shape) is an
  abstract parameter `String → Option EquipmentRecord` that is `none`
  when decoding raises or produces a non-object.
-/

import Mathlib

/-! ## String utilities (Python substring / case / strip semantics) -/

/-- Boolean "is prefix of" on character lists. -/
def prefixB : List Char → List Char → Bool
  | [], _ => true
  | _ :: _, [] => false
  | a :: as, b :: bs => a == b && prefixB as bs

/-- Boolean "occurs as a contiguous substring of" on character lists. -/
def infixB (n : List Char) : List Char → Bool
  | [] => prefixB n []
  | c :: cs => prefixB n (c :: cs) || infixB n cs

/-- Python's `needle in hay` substring test. -/
def pyIn (needle hay : String) : Bool := infixB needle.data hay.data

/-- ASCII lowercasing, Python `str.lower` on the strings in play. -/
def lowerS (s : String) : String := ⟨s.data.map Char.toLower⟩

/-- ASCII uppercasing, Python `str.upper` on the strings in play. -/
def upperS (s : String) : String := ⟨s.data.map Char.toUpper⟩

/-- The whitespace characters stripped by Python's `str.strip`. -/
def isSpaceChar (c : Char) : Bool :=
  c == ' ' || c == '\t' || c == '\n' || c == '\r' || c == '\x0b' || c == '\x0c'

/-- Python `str.strip`: drop whitespace from both ends. -/
def stripL (cs : List Char) : List Char :=
  ((cs.dropWhile isSpaceChar).reverse.dropWhile isSpaceChar).reverse

/-- Split a character list on a separator character, keeping empty pieces,
exactly like Python's `str.split(sep)`. -/
def splitChar (sep : Char) : List Char → List (List Char)
  | [] => [[]]
  | c :: cs =>
    if c == sep then [] :: splitChar sep cs
    else
      match splitChar sep cs with
      | [] => [[c]]
      | h :: t => (c :: h) :: t

/-! ## Vocabulary / config (`config.py`) -/

/-- `EQUIPMENT_CATEGORIES` from `config.py`. -/
def EQUIPMENT_CATEGORIES : List String :=
  ["UPS / Inverter", "Transformer", "Stabilizer", "Industrial PCB",
   "Meter / Gauge", "Breaker Panel", "Battery Packs", "Other Industrial Equipment"]

/-- `HEALTH_PENALTIES` from `config.py`, in dict insertion order (Python
dict iteration order), identical to the inline `damage_penalties` dict in
`app.py`. -/
def HEALTH_PENALTIES : List (String × Int) :=
  [("burn marks", 25), ("scorch marks", 20), ("corrosion", 15), ("rust", 15),
   ("broken display", 20), ("overheating", 30), ("loose wires", 10),
   ("water damage", 40), ("mechanical damage", 20), ("missing components", 25)]

/-! ## Health scoring (`health_analyzer.py`, `app.py`) -/

/-- The fields of the `equipment_data` dict that `calculate_health_score`
reads, via `equipment_data.get(key, '')`: a missing key is the empty
string. -/
structure HealthInput where
  condition : String
  operational_status : String
  estimated_age : String

/-- Penalty contributed by one damage label: the first entry of
`HEALTH_PENALTIES` whose key is a case-insensitive substring of the label
(the inner `for`/`break` loop of `calculate_health_score`), `0` when no
key matches. -/
def damagePenalty (damage : String) : Int :=
  match HEALTH_PENALTIES.find? (fun kp => pyIn (lowerS kp.1) (lowerS damage)) with
  | some kp => kp.2
  | none => 0

/-- `calculate_health_score` from `health_analyzer.py`. -/
def calculate_health_score (equipment_data : HealthInput) (detected_damages : List String) : Int :=
  let score := detected_damages.foldl (fun s damage => s - damagePenalty damage) 100
  let condition := lowerS equipment_data.condition
  let score := if pyIn "poor" condition then score - 20
    else if pyIn "fair" condition then score - 10
    else score
  let operational := lowerS equipment_data.operational_status
  let score := if pyIn "non-functional" operational || pyIn "malfunctioning" operational then score - 30
    else if pyIn "limited" operational || pyIn "intermittent" operational then score - 15
    else score
  let age := equipment_data.estimated_age
  let score := if pyIn "old" (lowerS age) && pyIn "> 15" age then score - 10
    else score
  max 0 (min 100 score)

/-- The variant `calculate_health_score` defined inline in `app.py`
(same penalty table; no "malfunctioning"/"intermittent" keywords, no age
deduction, and only `max(0, score)` at the end). -/
def app_calculate_health_score (equipment_data : HealthInput) (detected_damages : List String) : Int :=
  let score := detected_damages.foldl (fun s damage => s - damagePenalty damage) 100
  let condition := lowerS equipment_data.condition
  let score := if pyIn "poor" condition then score - 20
    else if pyIn "fair" condition then score - 10
    else score
  let operational := lowerS equipment_data.operational_status
  let score := if pyIn "non-functional" operational then score - 30
    else if pyIn "limited" operational then score - 15
    else score
  max 0 score

/-- A record that is neutral for scoring: its condition and operational
status contain none of the keywords the scorer reacts to, and the age
field is absent (`get` returns `""`). -/
def neutralRecord (d : HealthInput) : Prop :=
  pyIn "poor" (lowerS d.condition) = false ∧
  pyIn "fair" (lowerS d.condition) = false ∧
  pyIn "non-functional" (lowerS d.operational_status) = false ∧
  pyIn "malfunctioning" (lowerS d.operational_status) = false ∧
  pyIn "limited" (lowerS d.operational_status) = false ∧
  pyIn "intermittent" (lowerS d.operational_status) = false ∧
  d.estimated_age = ""

instance (d : HealthInput) : Decidable (neutralRecord d) := by
  unfold neutralRecord; infer_instance

/-! ## Equipment classification (`ai_classifier.py`) -/

/-- The candidate category the classifier code extracts from the model
response: `response.text.strip().split('\n')[0]`. -/
def extractedCategory (raw : String) : String :=
  ⟨(stripL raw.data).takeWhile (fun c => !(c == '\n'))⟩

/-- `classify_equipment_type` from `ai_classifier.py`.  The external
Gemini call is the input: `none` when the call (or model setup) raises —
the `except` branch — and `some raw` when it returns response text
`raw`. -/
def classify_equipment_type (aiResponse : Option String) : String :=
  match aiResponse with
  | none => "Other Industrial Equipment"
  | some raw =>
    let equipment_type := extractedCategory raw
    if EQUIPMENT_CATEGORIES.contains equipment_type then equipment_type
    else "Other Industrial Equipment"

/-- The inline `classify_equipment_type` variant in `app.py`: it performs
no vocabulary check — `return equipment_type if equipment_type else
"Other Industrial Equipment"` only substitutes the default when the
extracted first line is empty (Python falsiness) or the call raises. -/
def app_classify_equipment_type (aiResponse : Option String) : String :=
  match aiResponse with
  | none => "Other Industrial Equipment"
  | some raw =>
    let equipment_type := extractedCategory raw
    if equipment_type = "" then "Other Industrial Equipment" else equipment_type

/-! ## Compliance analyzer (`ai_classifier.py`) -/

/-- The dict returned by `analyze_compliance`. -/
structure ComplianceChecks where
  iso_certified : Bool
  ce_marked : Bool
  rohs_compliant : Bool
  bis_certified : Bool
  ul_listed : Bool
  certifications_found : List String
  potential_issues : List String

/-- `analyze_compliance` from `ai_classifier.py`: a pure case-insensitive
containment scan over the OCR text.  (The source checks `'ROHS' in
ocr_upper or 'ROHS' in ocr_upper`, duplicating the same test; mirrored.)
The unused `image_path`/`equipment_type` parameters are dropped. -/
def analyze_compliance (ocr_text : String) : ComplianceChecks :=
  let ocr_upper := upperS ocr_text
  let iso := pyIn "ISO" ocr_upper
  let ce := pyIn "CE" ocr_upper
  let rohs := pyIn "ROHS" ocr_upper || pyIn "ROHS" ocr_upper
  let bis := pyIn "BIS" ocr_upper
  let ul := pyIn "UL" ocr_upper
  { iso_certified := iso
    ce_marked := ce
    rohs_compliant := rohs
    bis_certified := bis
    ul_listed := ul
    certifications_found :=
      (if iso then ["ISO"] else []) ++ (if ce then ["CE"] else []) ++
      (if rohs then ["RoHS"] else []) ++ (if bis then ["BIS"] else []) ++
      (if ul then ["UL"] else [])
    potential_issues := [] }

/-! ## Health report (`health_analyzer.py`) -/

/-- `_estimate_maintenance_schedule` from `health_analyzer.py`. -/
def estimate_maintenance_schedule (health_score : Int) : String :=
  if health_score < 40 then "Immediate - Within 1 week"
  else if health_score < 60 then "Urgent - Within 2 weeks"
  else if health_score < 80 then "Scheduled - Within 1 month"
  else "Routine - Within 6 months"

/-- `_estimate_remaining_lifespan` from `health_analyzer.py` (it ignores
its `equipment_data` argument). -/
def estimate_remaining_lifespan (health_score : Int) : String :=
  if 80 ≤ health_score then "5+ years (excellent condition)"
  else if 60 ≤ health_score then "2-5 years (good condition)"
  else if 40 ≤ health_score then "1-2 years (needs attention)"
  else if 20 ≤ health_score then "6-12 months (critical)"
  else "< 6 months (replacement recommended)"

/-- The status / risk-level / recommended-action triple assigned by the
leading `if`/`elif` chain of `generate_health_report`. -/
def statusRiskAction (health_score : Int) : String × String × String :=
  if 80 ≤ health_score then ("Excellent", "Low", "Continue routine maintenance")
  else if 60 ≤ health_score then ("Good", "Low-Medium", "Schedule routine inspection")
  else if 40 ≤ health_score then ("Fair", "Medium", "Schedule maintenance soon")
  else if 20 ≤ health_score then ("Poor", "High", "Immediate attention required")
  else ("Critical", "Critical", "Immediate shutdown and inspection")

/-- The deterministic fields of the dict built by `generate_health_report`
(`health_analyzer.py`).  `damage_impact` is the `"breakdown"` entry
`len(detected_damages) * 10`.  The `"recommendations"` entry is omitted
from the embedding: `_generate_specific_recommendations` deduplicates via
Python `set`, whose resulting order is implementation-defined, and no
claim concerns it. -/
structure HealthReport where
  overall_health_score : Int
  status : String
  risk_level : String
  recommended_action : String
  damage_impact : Int
  condition_assessment : String
  operational_impact : String
  specific_issues : List String
  next_maintenance_date : String
  estimated_lifespan_remaining : String

/-- `generate_health_report` from `health_analyzer.py`.  `hasCondition`
and `hasOperational` model the Python membership tests `'condition' in
equipment_data` and `'operational_status' in equipment_data`. -/
def generate_health_report (hasCondition hasOperational : Bool) (health_score : Int)
    (detected_damages : List String) : HealthReport :=
  { overall_health_score := health_score
    status := (statusRiskAction health_score).1
    risk_level := (statusRiskAction health_score).2.1
    recommended_action := (statusRiskAction health_score).2.2
    damage_impact := (detected_damages.length : Int) * 10
    condition_assessment := if hasCondition then "Included in score" else "Not assessed"
    operational_impact := if hasOperational then "Included in score" else "Not assessed"
    specific_issues := detected_damages
    next_maintenance_date := estimate_maintenance_schedule health_score
    estimated_lifespan_remaining := estimate_remaining_lifespan health_score }

/-! ## Structured field parser (`data_parser.py`)

The fallback parser uses a handful of fixed regular expressions via
`re.search(..., re.IGNORECASE)` on lines already uppercased by
`line.upper()`.  Each pattern is embedded as a dedicated matcher: a
function trying to match at the head of a character list and returning
the capture group; `searchWith` then scans left to right over all start
positions, which is exactly `re.search`'s leftmost-match rule.  For these
patterns (whose adjacent pieces draw from disjoint character classes)
greedy maximal munch coincides with Python's backtracking semantics. -/

/-- Case-insensitive character equality (`re.IGNORECASE` on literals). -/
def ciEq (a b : Char) : Bool := a.toUpper == b.toUpper

/-- The character class `[A-Z0-9\-]` under `re.IGNORECASE`. -/
def isClassChar (c : Char) : Bool :=
  ('A' ≤ c.toUpper && c.toUpper ≤ 'Z') || ('0' ≤ c && c ≤ '9') || c == '-'

/-- The character class `\d`. -/
def isDigitChar (c : Char) : Bool := '0' ≤ c && c ≤ '9'

/-- Consume a literal (case-insensitively), returning the rest. -/
def dropLit : List Char → List Char → Option (List Char)
  | [], s => some s
  | _ :: _, [] => none
  | l :: ls, c :: cs => if ciEq l c then dropLit ls cs else none

/-- Consume `p*` greedily. -/
def dropStar (p : Char → Bool) (s : List Char) : List Char := s.dropWhile p

/-- Consume `p+` greedily, returning the consumed run and the rest. -/
def takePlus (p : Char → Bool) (s : List Char) : Option (List Char × List Char) :=
  let g := s.takeWhile p
  if g.isEmpty then none else some (g, s.drop g.length)

/-- The group `(\d+(?:\.\d+)?)`: digits with an optional fraction part. -/
def matchNumber (s : List Char) : Option (List Char × List Char) :=
  match takePlus isDigitChar s with
  | none => none
  | some (d, rest) =>
    match rest with
    | '.' :: r2 =>
      (match takePlus isDigitChar r2 with
       | some (f, rest2) => some (d ++ '.' :: f, rest2)
       | none => some (d, rest))
    | _ => some (d, rest)

/-- `MODEL\s*[#:]*\s*([A-Z0-9\-]+)` at the current position. -/
def matchModel1 (s : List Char) : Option (List Char) := do
  let s ← dropLit "MODEL".data s
  let s := dropStar isSpaceChar s
  let s := dropStar (fun c => c == '#' || c == ':') s
  let s := dropStar isSpaceChar s
  let (g, _) ← takePlus isClassChar s
  pure g

/-- `#([A-Z0-9\-]+)` at the current position. -/
def matchModel2 (s : List Char) : Option (List Char) := do
  let s ← dropLit "#".data s
  let (g, _) ← takePlus isClassChar s
  pure g

/-- `MDL\s*([A-Z0-9\-]+)` at the current position. -/
def matchModel3 (s : List Char) : Option (List Char) := do
  let s ← dropLit "MDL".data s
  let s := dropStar isSpaceChar s
  let (g, _) ← takePlus isClassChar s
  pure g

/-- `SERIAL\s*[#:]*\s*([A-Z0-9\-]+)` at the current position. -/
def matchSerial1 (s : List Char) : Option (List Char) := do
  let s ← dropLit "SERIAL".data s
  let s := dropStar isSpaceChar s
  let s := dropStar (fun c => c == '#' || c == ':') s
  let s := dropStar isSpaceChar s
  let (g, _) ← takePlus isClassChar s
  pure g

/-- `SN[#:]*\s*([A-Z0-9\-]+)` at the current position. -/
def matchSerial2 (s : List Char) : Option (List Char) := do
  let s ← dropLit "SN".data s
  let s := dropStar (fun c => c == '#' || c == ':') s
  let s := dropStar isSpaceChar s
  let (g, _) ← takePlus isClassChar s
  pure g

/-- `S/N[#:]*\s*([A-Z0-9\-]+)` at the current position. -/
def matchSerial3 (s : List Char) : Option (List Char) := do
  let s ← dropLit "S/N".data s
  let s := dropStar (fun c => c == '#' || c == ':') s
  let s := dropStar isSpaceChar s
  let (g, _) ← takePlus isClassChar s
  pure g

/-- `(\d+(?:\.\d+)?)\s*V(?:OLTS?)?` at the current position (only the
`V` after the number constrains the match). -/
def matchVolt1 (s : List Char) : Option (List Char) := do
  let (g, rest) ← matchNumber s
  let rest := dropStar isSpaceChar rest
  match rest with
  | c :: _ => if ciEq 'V' c then some g else none
  | [] => none

/-- `(\d+(?:\.\d+)?)\s*VAC` at the current position. -/
def matchVolt2 (s : List Char) : Option (List Char) := do
  let (g, rest) ← matchNumber s
  let rest := dropStar isSpaceChar rest
  let _ ← dropLit "VAC".data rest
  pure g

/-- `(\d+(?:\.\d+)?)\s*VDC` at the current position. -/
def matchVolt3 (s : List Char) : Option (List Char) := do
  let (g, rest) ← matchNumber s
  let rest := dropStar isSpaceChar rest
  let _ ← dropLit "VDC".data rest
  pure g

/-- `re.search`: try the position matcher at each start position, left to
right. -/
def searchWith (m : List Char → Option (List Char)) : List Char → Option (List Char)
  | [] => m []
  | c :: cs =>
    match m (c :: cs) with
    | some g => some g
    | none => searchWith m cs

/-- First matcher in the list that succeeds anywhere on the line: the
`for pattern in ...: match = re.search(...)` loops with `break` on first
success into an unset field. -/
def matchFirst (ms : List (List Char → Option (List Char))) (line : List Char) : Option (List Char) :=
  match ms with
  | [] => none
  | m :: rest =>
    match searchWith m line with
    | some g => some g
    | none => matchFirst rest line

/-- The `manufacturers` brand list in `basic_parse_equipment`. -/
def MANUFACTURERS : List String :=
  ["SIEMENS", "ABB", "GE", "ROCKWELL", "HONEYWELL", "SCHNEIDER",
   "MITSUBISHI", "FUJI", "DELTA", "TOSHIBA"]

/-- Python `str.title` on the single-word brand names in play: first
letter uppercased, the following letters lowercased. -/
def pyTitle (s : String) : String :=
  match s.data with
  | [] => ⟨[]⟩
  | c :: cs => ⟨c.toUpper :: cs.map Char.toLower⟩

/-- The mutable fields `basic_parse_equipment` fills while scanning
lines. -/
structure ParseState where
  manufacturer : String
  model_number : String
  serial_number : String
  voltage : Option String

/-- One iteration of the `for line in lines` loop of
`basic_parse_equipment`: uppercase the line, then try manufacturer,
model, serial and voltage patterns, each only while its field is still
unset (Python falsiness of `""` / key absence). -/
def processLine (st : ParseState) (rawLine : List Char) : ParseState :=
  let line := rawLine.map Char.toUpper
  let manufacturer :=
    if st.manufacturer = "" then
      match MANUFACTURERS.find? (fun m => infixB m.data line) with
      | some m => pyTitle m
      | none => ""
    else st.manufacturer
  let model :=
    if st.model_number = "" then
      match matchFirst [matchModel1, matchModel2, matchModel3] line with
      | some g => ⟨g⟩
      | none => ""
    else st.model_number
  let serial :=
    if st.serial_number = "" then
      match matchFirst [matchSerial1, matchSerial2, matchSerial3] line with
      | some g => ⟨g⟩
      | none => ""
    else st.serial_number
  let volt :=
    match st.voltage with
    | some v => some v
    | none => (matchFirst [matchVolt1, matchVolt2, matchVolt3] line).map (fun g => String.mk (g ++ ['V']))
  ⟨manufacturer, model, serial, volt⟩

/-- The `specifications` dict: `basic_parse_equipment` only ever sets the
`voltage` key. -/
structure Specifications where
  voltage : Option String

/-- The structured record both parser paths return. -/
structure EquipmentRecord where
  equipment_type : String
  manufacturer : String
  model_number : String
  serial_number : String
  specifications : Specifications
  condition : String
  operational_status : String
  detected_damages : List String
  extracted_text : String
  confidence : String

/-- The keyword-bucket assessment at the end of `basic_parse_equipment`:
condition, operational status and confidence from the lowercased whole
text, first matching bucket wins. -/
def assessment (ocr_lower : List Char) : String × String × String :=
  if ["new", "unused", "never used", "factory", "boxed"].any (fun w => infixB w.data ocr_lower) then
    ("Good - Appears new/unused", "Fully functional - New equipment", "medium")
  else if ["used", "service", "maintenance required"].any (fun w => infixB w.data ocr_lower) then
    ("Fair - Shows signs of use", "Limited functionality - May need maintenance", "medium")
  else if ["rust", "corrosion", "damaged", "broken", "faulty"].any (fun w => infixB w.data ocr_lower) then
    ("Poor - Visible damage/wear", "Non-functional - Requires repair", "medium")
  else if infixB "voltage".data ocr_lower || infixB "current".data ocr_lower || infixB "power".data ocr_lower then
    ("Good - Specifications readable", "Functional - Based on available specs", "medium")
  else
    ("Unknown - Unable to assess without AI", "Unknown - Unable to assess without AI", "low")

/-- `basic_parse_equipment` from `data_parser.py` (the AI-free regex
fallback).  Note the `detected_damages` field of the returned record is
the literal `[]` from the initial dict: the function takes no damage
list and never updates that key. -/
def basic_parse_equipment (ocr_text : String) : EquipmentRecord :=
  let lines := ((splitChar '\n' ocr_text.data).map stripL).filter (fun l => !l.isEmpty)
  let st := lines.foldl processLine ⟨"", "", "", none⟩
  let ocr_lower := ocr_text.data.map Char.toLower
  { equipment_type := "Unknown"
    manufacturer := st.manufacturer
    model_number := st.model_number
    serial_number := st.serial_number
    specifications := ⟨st.voltage⟩
    condition := (assessment ocr_lower).1
    operational_status := (assessment ocr_lower).2.1
    detected_damages := []
    extracted_text := ocr_text
    confidence := (assessment ocr_lower).2.2 }

/-- The balanced-brace scan of `parse_equipment_data`: starting at the
first `{`, count brace depth and cut at the position where it returns to
zero (`none` when it never does, in which case the Python slice
`response_text[start:start]` is empty). -/
def scanJson : List Char → Int → List Char → Option (List Char)
  | [], _, _ => none
  | c :: rest, depth, acc =>
    if c == '{' then scanJson rest (depth + 1) (c :: acc)
    else if c == '}' then
      (if depth - 1 == 0 then some (c :: acc).reverse
       else scanJson rest (depth - 1) (c :: acc))
    else scanJson rest depth (c :: acc)

/-- `json_str`: the first balanced-brace block of the response text,
empty when the braces never rebalance. -/
def extract_json (response_text : List Char) : List Char :=
  match scanJson (response_text.dropWhile (fun c => !(c == '{'))) 0 [] with
  | some js => js
  | none => []

/-- `parse_equipment_data` from `data_parser.py`.  External effects are
parameters: `aiResponse` is `none` when model setup or generation raises
(the outer `except` branch) and `some raw` when the model returns text
`raw`; `decodeJson` stands for `json.loads` restricted to objects of the
record shape, `none` when decoding raises (or yields a non-dict, which
makes the subsequent key assignment raise into the outer `except`).  On
a successful decode the caller's `detected_damages` overwrites the
decoded field; every failure path returns
`basic_parse_equipment ocr_text`. -/
def parse_equipment_data (decodeJson : String → Option EquipmentRecord)
    (aiResponse : Option String) (ocr_text equipment_type : String)
    (detected_damages : List String) : EquipmentRecord :=
  match aiResponse with
  | none => basic_parse_equipment ocr_text
  | some raw =>
    let response_text := stripL raw.data
    if response_text.contains '{' && response_text.contains '}' then
      match decodeJson ⟨extract_json response_text⟩ with
      | some parsed => { parsed with detected_damages := detected_damages }
      | none => basic_parse_equipment ocr_text
    else basic_parse_equipment ocr_text

/-- A concrete record used to instantiate the abstract JSON decoder in
witnesses: what decoding the empty JSON object yields (every field at
its empty/default value). -/
def sampleDecodedRecord : EquipmentRecord :=
  ⟨"", "", "", "", ⟨none⟩, "", "", [], "", ""⟩

/-- A concrete decoder used in witnesses, consistent with `json.loads`
on the inputs it is applied to: it succeeds exactly on the empty JSON
object (written `\x7b\x7d`), on which `json.loads` succeeds, and fails on
everything else it is ever applied to in this file (strings on which
`json.loads` raises). -/
def sampleDecoder : String → Option EquipmentRecord :=
  fun s => if s = "{}" then some sampleDecodedRecord else none

/-! ## Helper lemmas -/

theorem prefixB_iff (a : List Char) : ∀ b, prefixB a b = true ↔ ∃ t, b = a ++ t := by
  induction a with
  | nil =>
    intro b
    simp only [prefixB, List.nil_append, true_iff]
    exact ⟨b, rfl⟩
  | cons x xs ih =>
    intro b
    cases b with
    | nil => simp [prefixB]
    | cons y ys =>
      simp only [prefixB, Bool.and_eq_true, beq_iff_eq, ih, List.cons_append, List.cons.injEq]
      constructor
      · rintro ⟨rfl, t, rfl⟩
        exact ⟨t, rfl, rfl⟩
      · rintro ⟨t, rfl, rfl⟩
        exact ⟨rfl, t, rfl⟩

theorem infixB_iff (n : List Char) : ∀ h, infixB n h = true ↔ ∃ s t, h = s ++ n ++ t := by
  intro h
  induction h with
  | nil =>
    rw [show infixB n [] = prefixB n [] from rfl, prefixB_iff]
    constructor
    · rintro ⟨t, ht⟩
      exact ⟨[], t, by simpa using ht⟩
    · rintro ⟨s, t, hst⟩
      rw [List.append_assoc] at hst
      obtain ⟨hs, hnt⟩ := (List.append_eq_nil).mp hst.symm
      obtain ⟨hn, ht⟩ := (List.append_eq_nil).mp hnt
      exact ⟨[], by simp [hn, ht]⟩
  | cons c cs ih =>
    rw [show infixB n (c :: cs) = (prefixB n (c :: cs) || infixB n cs) from rfl,
      Bool.or_eq_true, prefixB_iff, ih]
    constructor
    · rintro (⟨t, ht⟩ | ⟨s, t, hst⟩)
      · exact ⟨[], t, by simpa using ht⟩
      · exact ⟨c :: s, t, by simp [hst]⟩
    · rintro ⟨s, t, hst⟩
      cases s with
      | nil => exact Or.inl ⟨t, by simpa using hst⟩
      | cons s0 ss =>
        simp only [List.cons_append, List.cons.injEq] at hst
        exact Or.inr ⟨ss, t, hst.2⟩

theorem infixB_trans {a b c : List Char} (h1 : infixB a b = true) (h2 : infixB b c = true) :
    infixB a c = true := by
  rw [infixB_iff] at h1 h2 ⊢
  obtain ⟨s, t, rfl⟩ := h1
  obtain ⟨u, v, rfl⟩ := h2
  exact ⟨u ++ s, t ++ v, by simp⟩

theorem infixB_map (f : Char → Char) {a b : List Char} (h : infixB a b = true) :
    infixB (a.map f) (b.map f) = true := by
  rw [infixB_iff] at h ⊢
  obtain ⟨s, t, rfl⟩ := h
  exact ⟨s.map f, t.map f, by simp⟩

theorem foldl_damage_sub (l : List String) : ∀ init : Int,
    l.foldl (fun s damage => s - damagePenalty damage) init
      = init - (l.map damagePenalty).sum := by
  induction l with
  | nil => intro init; simp
  | cons h t ih =>
    intro init
    simp only [List.foldl_cons, List.map_cons, List.sum_cons, ih]
    ring

theorem damagePenalty_nonneg (damage : String) : 0 ≤ damagePenalty damage := by
  cases hf : HEALTH_PENALTIES.find? (fun kp => pyIn (lowerS kp.1) (lowerS damage)) with
  | none => simp [damagePenalty, hf]
  | some kp =>
    have hmem : kp ∈ HEALTH_PENALTIES := List.mem_of_find?_eq_some hf
    have hall : ∀ p ∈ HEALTH_PENALTIES, 0 ≤ p.2 := by decide
    simp only [damagePenalty, hf]
    exact hall kp hmem

theorem foldl_damage_sub_le (l : List String) (init : Int) :
    l.foldl (fun s damage => s - damagePenalty damage) init ≤ init := by
  rw [foldl_damage_sub]
  have hsum : 0 ≤ (l.map damagePenalty).sum := by
    apply List.sum_nonneg
    intro x hx
    obtain ⟨d, _, rfl⟩ := List.mem_map.mp hx
    exact damagePenalty_nonneg d
  omega

/-! ## Claims -/

/-- Claim C1: for every equipment record and every damage list (including
adversarial lists repeating every penalty-table key many times), both
implementations of `calculate_health_score` (`health_analyzer.py` and the
inline variant in `app.py`) return an integer in `[0, 100]`: the score
floors at `0`, never goes negative, and never exceeds `100`. -/
theorem calculate_health_score_in_bounds (d : HealthInput) (damages : List String) :
    (0 ≤ calculate_health_score d damages ∧ calculate_health_score d damages ≤ 100) ∧
    (0 ≤ app_calculate_health_score d damages ∧ app_calculate_health_score d damages ≤ 100) := by
  constructor
  · simp only [calculate_health_score]
    constructor
    · exact le_max_left 0 _
    · exact max_le (by norm_num) (min_le_left _ _)
  · simp only [app_calculate_health_score]
    have hf := foldl_damage_sub_le damages 100
    constructor
    · exact le_max_left 0 _
    · refine max_le (by norm_num) ?_
      split_ifs <;> omega

/-- Claim C3: each damage contributes its own penalty independently.  For
a record with none of the condition/operational keywords and no age
field, the score is `100` for the empty damage list, `75` for
`["burn marks"]`, and `60` for `["burn marks", "rust"]`. -/
theorem neutral_scores (d : HealthInput) (h : neutralRecord d) :
    calculate_health_score d [] = 100 ∧
    calculate_health_score d ["burn marks"] = 75 ∧
    calculate_health_score d ["burn marks", "rust"] = 60 := by
  obtain ⟨h1, h2, h3, h4, h5, h6, h7⟩ := h
  refine ⟨?_, ?_, ?_⟩ <;>
    · simp only [calculate_health_score, h1, h2, h3, h4, h5, h6, h7]
      decide

/-- Witness for C3 at the concrete neutral record produced by the
fallback-free paths. -/
theorem neutral_scores_witness :
    neutralRecord ⟨"Unknown", "Unknown", ""⟩ ∧
    (calculate_health_score ⟨"Unknown", "Unknown", ""⟩ [] = 100 ∧
      calculate_health_score ⟨"Unknown", "Unknown", ""⟩ ["burn marks"] = 75 ∧
      calculate_health_score ⟨"Unknown", "Unknown", ""⟩ ["burn marks", "rust"] = 60) :=
  ⟨by decide, neutral_scores ⟨"Unknown", "Unknown", ""⟩ (by decide)⟩

/-- Claim C4: damage labels are matched by first case-insensitive
substring in penalty-table order, not exact equality: for a neutral
record, `"Severe Rust Damage On Casing"` incurs the `rust` penalty of 15
(score 85), and a label matching no table key contributes zero. -/
theorem substring_penalty_matching (d : HealthInput) (h : neutralRecord d) :
    calculate_health_score d ["Severe Rust Damage On Casing"] = 85 ∧
    ∀ label : String,
      (∀ kp ∈ HEALTH_PENALTIES, pyIn (lowerS kp.1) (lowerS label) = false) →
      calculate_health_score d [label] = 100 := by
  obtain ⟨h1, h2, h3, h4, h5, h6, h7⟩ := h
  constructor
  · simp only [calculate_health_score, h1, h2, h3, h4, h5, h6, h7]
    decide
  · intro label hnone
    have hfind : HEALTH_PENALTIES.find? (fun kp => pyIn (lowerS kp.1) (lowerS label)) = none :=
      List.find?_eq_none.mpr (fun kp hkp => by simp [hnone kp hkp])
    have hpen : damagePenalty label = 0 := by simp [damagePenalty, hfind]
    simp only [calculate_health_score, h1, h2, h3, h4, h5, h6, h7, List.foldl_cons,
      List.foldl_nil, hpen]
    decide

/-- Witness for C4: the rust-substring label at a concrete neutral
record, and the no-key label `"dent"` contributing zero. -/
theorem substring_penalty_matching_witness :
    neutralRecord ⟨"Unknown", "Unknown", ""⟩ ∧
    calculate_health_score ⟨"Unknown", "Unknown", ""⟩ ["Severe Rust Damage On Casing"] = 85 ∧
    (∀ kp ∈ HEALTH_PENALTIES, pyIn (lowerS kp.1) (lowerS "dent") = false) ∧
    calculate_health_score ⟨"Unknown", "Unknown", ""⟩ ["dent"] = 100 :=
  ⟨by decide, (substring_penalty_matching ⟨"Unknown", "Unknown", ""⟩ (by decide)).1, by decide,
    (substring_penalty_matching ⟨"Unknown", "Unknown", ""⟩ (by decide)).2 "dent" (by decide)⟩

/-- Claim C5: the status/risk/action triple of the health report is a
step function of the score with strict, non-overlapping, exhaustive
thresholds at 80/60/40/20: score 80 yields "Excellent"/"Low", 79 yields
"Good"/"Low-Medium", and analogously at the other boundaries, with
scores below 20 yielding "Critical"/"Critical". -/
theorem report_status_step (hc ho : Bool) (dmgs : List String) (s : Int) :
    (80 ≤ s →
      (generate_health_report hc ho s dmgs).status = "Excellent" ∧
      (generate_health_report hc ho s dmgs).risk_level = "Low" ∧
      (generate_health_report hc ho s dmgs).recommended_action = "Continue routine maintenance") ∧
    (60 ≤ s → s < 80 →
      (generate_health_report hc ho s dmgs).status = "Good" ∧
      (generate_health_report hc ho s dmgs).risk_level = "Low-Medium" ∧
      (generate_health_report hc ho s dmgs).recommended_action = "Schedule routine inspection") ∧
    (40 ≤ s → s < 60 →
      (generate_health_report hc ho s dmgs).status = "Fair" ∧
      (generate_health_report hc ho s dmgs).risk_level = "Medium" ∧
      (generate_health_report hc ho s dmgs).recommended_action = "Schedule maintenance soon") ∧
    (20 ≤ s → s < 40 →
      (generate_health_report hc ho s dmgs).status = "Poor" ∧
      (generate_health_report hc ho s dmgs).risk_level = "High" ∧
      (generate_health_report hc ho s dmgs).recommended_action = "Immediate attention required") ∧
    (s < 20 →
      (generate_health_report hc ho s dmgs).status = "Critical" ∧
      (generate_health_report hc ho s dmgs).risk_level = "Critical" ∧
      (generate_health_report hc ho s dmgs).recommended_action = "Immediate shutdown and inspection") := by
  refine ⟨fun hb => ?_, fun hb hb2 => ?_, fun hb hb2 => ?_, fun hb hb2 => ?_, fun hb => ?_⟩
  · simp only [generate_health_report, statusRiskAction]
    rw [if_pos hb]
    exact ⟨rfl, rfl, rfl⟩
  · have hn1 : ¬ (80 ≤ s) := by omega
    simp only [generate_health_report, statusRiskAction]
    rw [if_neg hn1, if_pos hb]
    exact ⟨rfl, rfl, rfl⟩
  · have hn1 : ¬ (80 ≤ s) := by omega
    have hn2 : ¬ (60 ≤ s) := by omega
    simp only [generate_health_report, statusRiskAction]
    rw [if_neg hn1, if_neg hn2, if_pos hb]
    exact ⟨rfl, rfl, rfl⟩
  · have hn1 : ¬ (80 ≤ s) := by omega
    have hn2 : ¬ (60 ≤ s) := by omega
    have hn3 : ¬ (40 ≤ s) := by omega
    simp only [generate_health_report, statusRiskAction]
    rw [if_neg hn1, if_neg hn2, if_neg hn3, if_pos hb]
    exact ⟨rfl, rfl, rfl⟩
  · have hn1 : ¬ (80 ≤ s) := by omega
    have hn2 : ¬ (60 ≤ s) := by omega
    have hn3 : ¬ (40 ≤ s) := by omega
    have hn4 : ¬ (20 ≤ s) := by omega
    simp only [generate_health_report, statusRiskAction]
    rw [if_neg hn1, if_neg hn2, if_neg hn3, if_neg hn4]
    exact ⟨rfl, rfl, rfl⟩

/-- Witness for C5: both sides of the 80 boundary and the three lower
boundaries at concrete scores. -/
theorem report_status_step_witness :
    ((80 : Int) ≤ 80 ∧
      (generate_health_report true true 80 []).status = "Excellent" ∧
      (generate_health_report true true 80 []).risk_level = "Low") ∧
    ((60 : Int) ≤ 79 ∧ (79 : Int) < 80 ∧
      (generate_health_report true true 79 []).status = "Good" ∧
      (generate_health_report true true 79 []).risk_level = "Low-Medium") ∧
    ((40 : Int) ≤ 59 ∧ (59 : Int) < 60 ∧
      (generate_health_report true true 59 []).status = "Fair") ∧
    ((20 : Int) ≤ 39 ∧ (39 : Int) < 40 ∧
      (generate_health_report true true 39 []).status = "Poor") ∧
    ((19 : Int) < 20 ∧
      (generate_health_report true true 19 []).status = "Critical" ∧
      (generate_health_report true true 19 []).risk_level = "Critical") := by
  refine ⟨⟨by norm_num, ?_, ?_⟩, ⟨by norm_num, by norm_num, ?_, ?_⟩,
    ⟨by norm_num, by norm_num, ?_⟩, ⟨by norm_num, by norm_num, ?_⟩, ⟨by norm_num, ?_, ?_⟩⟩
  · exact ((report_status_step true true [] 80).1 (by norm_num)).1
  · exact ((report_status_step true true [] 80).1 (by norm_num)).2.1
  · exact ((report_status_step true true [] 79).2.1 (by norm_num) (by norm_num)).1
  · exact ((report_status_step true true [] 79).2.1 (by norm_num) (by norm_num)).2.1
  · exact ((report_status_step true true [] 59).2.2.1 (by norm_num) (by norm_num)).1
  · exact ((report_status_step true true [] 39).2.2.2.1 (by norm_num) (by norm_num)).1
  · exact ((report_status_step true true [] 19).2.2.2.2 (by norm_num)).1
  · exact ((report_status_step true true [] 19).2.2.2.2 (by norm_num)).2.1

/-- Claim C9 (implicit): the health score is invariant under permutation
of the damage list — every label's penalty depends only on the label, and
the contributions are subtracted one by one. -/
theorem health_score_perm_invariant (d : HealthInput) (l1 l2 : List String)
    (h : List.Perm l1 l2) :
    calculate_health_score d l1 = calculate_health_score d l2 := by
  have hs : l1.foldl (fun s damage => s - damagePenalty damage) 100
      = l2.foldl (fun s damage => s - damagePenalty damage) 100 := by
    rw [foldl_damage_sub, foldl_damage_sub, List.Perm.sum_eq (List.Perm.map damagePenalty h)]
  simp only [calculate_health_score, hs]

/-- Witness for C9 at a concrete pair of permuted lists. -/
theorem health_score_perm_invariant_witness :
    List.Perm ["rust", "burn marks"] ["burn marks", "rust"] ∧
    calculate_health_score ⟨"Unknown", "Unknown", ""⟩ ["rust", "burn marks"]
      = calculate_health_score ⟨"Unknown", "Unknown", ""⟩ ["burn marks", "rust"] :=
  ⟨List.Perm.swap "burn marks" "rust" [],
    health_score_perm_invariant ⟨"Unknown", "Unknown", ""⟩ _ _
      (List.Perm.swap "burn marks" "rust" [])⟩

/-- Claim C10 (implicit): the report's `damage_impact` breakdown entry is
always `10` per damage label regardless of the damage type, and does not
equal the penalty actually deducted from the score: a single
`"water damage"` label deducts `40` (score `60` on a neutral record) but
reports a `damage_impact` of `10`. -/
theorem damage_impact_is_count_times_ten (hc ho : Bool) (s : Int) (dmgs : List String) :
    (generate_health_report hc ho s dmgs).damage_impact = (dmgs.length : Int) * 10 ∧
    (generate_health_report hc ho s ["water damage"]).damage_impact = 10 ∧
    (∀ d : HealthInput, neutralRecord d →
      calculate_health_score d ["water damage"] = 60) := by
  refine ⟨rfl, by norm_num [generate_health_report], ?_⟩
  intro d hd
  obtain ⟨h1, h2, h3, h4, h5, h6, h7⟩ := hd
  simp only [calculate_health_score, h1, h2, h3, h4, h5, h6, h7]
  decide

/-- Witness for C10 at a concrete neutral record and score. -/
theorem damage_impact_witness :
    neutralRecord ⟨"Unknown", "Unknown", ""⟩ ∧
    calculate_health_score ⟨"Unknown", "Unknown", ""⟩ ["water damage"] = 60 ∧
    (generate_health_report true true 60 ["water damage"]).damage_impact = 10 :=
  ⟨by decide,
    (damage_impact_is_count_times_ten true true 60 ["water damage"]).2.2
      ⟨"Unknown", "Unknown", ""⟩ (by decide),
    (damage_impact_is_count_times_ten true true 60 ["water damage"]).2.1⟩

/-- Counterexample to claim C7 as stated: the claim covers both cited
implementations, but the inline `classify_equipment_type` in `app.py`
performs no vocabulary check — the out-of-vocabulary response
"Jet Engine" is returned unchanged, not coerced to
"Other Industrial Equipment". -/
theorem app_classify_no_coercion :
    EQUIPMENT_CATEGORIES.contains (extractedCategory "Jet Engine") = false ∧
    app_classify_equipment_type (some "Jet Engine") = "Jet Engine" ∧
    app_classify_equipment_type (some "Jet Engine") ≠ "Other Industrial Equipment" := by
  decide

/-- Claim C7 as amended: `ai_classifier.py`'s `classify_equipment_type`
(the pipeline's classification step, used by `main.py`) coerces every
response whose extracted category (first line of the stripped response
text, the value the code validates) is outside the eight categories to
"Other Industrial Equipment", and yields the same on an erroring call —
silently, never an error; the legacy inline variant in `app.py` only
substitutes that default for an empty extraction or an erroring call,
returning a non-empty unknown category unchanged. -/
theorem classify_unknown_coerced_amended (raw : String)
    (h : EQUIPMENT_CATEGORIES.contains (extractedCategory raw) = false) :
    (classify_equipment_type (some raw) = "Other Industrial Equipment" ∧
      classify_equipment_type none = "Other Industrial Equipment") ∧
    (extractedCategory raw ≠ "" →
      app_classify_equipment_type (some raw) = extractedCategory raw) ∧
    (extractedCategory raw = "" →
      app_classify_equipment_type (some raw) = "Other Industrial Equipment") ∧
    app_classify_equipment_type none = "Other Industrial Equipment" := by
  refine ⟨⟨?_, rfl⟩, fun hne => ?_, fun he => ?_, rfl⟩
  · have h2 : extractedCategory raw ∉ EQUIPMENT_CATEGORIES := by simpa using h
    simp [classify_equipment_type, h2]
  · simp [app_classify_equipment_type, hne]
  · simp [app_classify_equipment_type, he]

/-- Witness for C7: the out-of-vocabulary response "Jet Engine" against
both implementations. -/
theorem classify_unknown_coerced_amended_witness :
    EQUIPMENT_CATEGORIES.contains (extractedCategory "Jet Engine") = false ∧
    classify_equipment_type (some "Jet Engine") = "Other Industrial Equipment" ∧
    (extractedCategory "Jet Engine" ≠ "" ∧
      app_classify_equipment_type (some "Jet Engine") = extractedCategory "Jet Engine") :=
  ⟨by decide, (classify_unknown_coerced_amended "Jet Engine" (by decide)).1.1,
    by decide, (classify_unknown_coerced_amended "Jet Engine" (by decide)).2.1 (by decide)⟩

/-- Claim C8: the compliance analyzer is a pure case-insensitive
containment scan: any OCR text containing "ISO9001 CERTIFIED, CE MARKED"
has `iso_certified` and `ce_marked` set, and on that text itself
`certifications_found` is exactly `["ISO", "CE"]` in that order. -/
theorem compliance_scan_iso_ce (t : String)
    (h : pyIn "ISO9001 CERTIFIED, CE MARKED" t = true) :
    (analyze_compliance t).iso_certified = true ∧
    (analyze_compliance t).ce_marked = true ∧
    (analyze_compliance "ISO9001 CERTIFIED, CE MARKED").certifications_found = ["ISO", "CE"] := by
  have hlist : infixB "ISO9001 CERTIFIED, CE MARKED".data t.data = true := h
  have hup : infixB "ISO9001 CERTIFIED, CE MARKED".data (upperS t).data = true := by
    have h2 := infixB_map Char.toUpper hlist
    rw [show "ISO9001 CERTIFIED, CE MARKED".data.map Char.toUpper
        = "ISO9001 CERTIFIED, CE MARKED".data from by decide] at h2
    exact h2
  have hiso : infixB "ISO".data (upperS t).data = true :=
    infixB_trans (by decide) hup
  have hce : infixB "CE".data (upperS t).data = true :=
    infixB_trans (by decide) hup
  refine ⟨?_, ?_, by decide⟩
  · simp [analyze_compliance, pyIn, hiso]
  · simp [analyze_compliance, pyIn, hce]

/-- Witness for C8 at the canonical text itself. -/
theorem compliance_scan_iso_ce_witness :
    pyIn "ISO9001 CERTIFIED, CE MARKED" "ISO9001 CERTIFIED, CE MARKED" = true ∧
    (analyze_compliance "ISO9001 CERTIFIED, CE MARKED").iso_certified = true ∧
    (analyze_compliance "ISO9001 CERTIFIED, CE MARKED").ce_marked = true ∧
    (analyze_compliance "ISO9001 CERTIFIED, CE MARKED").certifications_found = ["ISO", "CE"] :=
  ⟨by decide,
    (compliance_scan_iso_ce "ISO9001 CERTIFIED, CE MARKED" (by decide)).1,
    (compliance_scan_iso_ce "ISO9001 CERTIFIED, CE MARKED" (by decide)).2.1,
    (compliance_scan_iso_ce "ISO9001 CERTIFIED, CE MARKED" (by decide)).2.2⟩

/-- Claim C6: the regex fallback parser is deterministic and AI-free (in
the embedding it is a pure function of the OCR text alone): on
"MODEL: XYZ-100\nSN: 98765\n220V" it extracts model number "XYZ-100",
serial number "98765" and voltage specification "220V". -/
theorem basic_parse_regex_fields :
    (basic_parse_equipment "MODEL: XYZ-100\nSN: 98765\n220V").model_number = "XYZ-100" ∧
    (basic_parse_equipment "MODEL: XYZ-100\nSN: 98765\n220V").serial_number = "98765" ∧
    (basic_parse_equipment "MODEL: XYZ-100\nSN: 98765\n220V").specifications.voltage
      = some "220V" := by
  decide

/-- Counterexample to claim C2 as stated: on the AI response
"no json here" the brace guard (`'\x7b' in response_text and '\x7d' in
response_text`) fails, so the code returns the regex-fallback record —
whose `detected_damages` is `[]`, not the caller-supplied `["rust"]`.
The decoder is never consulted on this input (no JSON object is ever
extracted), so any instantiation of it gives this result; `sampleDecoder`
agrees with `json.loads` where applied. -/
theorem parse_fallback_drops_damages :
    (parse_equipment_data sampleDecoder (some "no json here") "" "UPS / Inverter"
        ["rust"]).detected_damages ≠ ["rust"] := by
  decide

/-- Claim C2 as amended, path by path: when the external call raises, the
result is the fallback record; when the response contains no `'\x7b'`/
`'\x7d'` pair, the result is the fallback record; when a JSON object is
extracted and decodes, the result is the decoded record with
`detected_damages` overwritten by the caller's list; when decoding fails,
the result is the fallback record — and the fallback record's
`detected_damages` is always the empty list, not the caller's list. -/
theorem parse_damages_overwrite_amended (decodeJson : String → Option EquipmentRecord)
    (ocr_text equipment_type : String) (detected_damages : List String) :
    parse_equipment_data decodeJson none ocr_text equipment_type detected_damages
      = basic_parse_equipment ocr_text ∧
    (∀ raw : String,
      (((stripL raw.data).contains '{' && (stripL raw.data).contains '}') = false →
        parse_equipment_data decodeJson (some raw) ocr_text equipment_type detected_damages
          = basic_parse_equipment ocr_text) ∧
      (∀ parsed : EquipmentRecord,
        decodeJson ⟨extract_json (stripL raw.data)⟩ = some parsed →
        (((stripL raw.data).contains '{' && (stripL raw.data).contains '}') = true →
          parse_equipment_data decodeJson (some raw) ocr_text equipment_type detected_damages
            = { parsed with detected_damages := detected_damages })) ∧
      (decodeJson ⟨extract_json (stripL raw.data)⟩ = none →
        parse_equipment_data decodeJson (some raw) ocr_text equipment_type detected_damages
          = basic_parse_equipment ocr_text)) ∧
    (basic_parse_equipment ocr_text).detected_damages = [] := by
  refine ⟨rfl, fun raw => ⟨fun hguard => ?_, fun parsed hdec hguard => ?_, fun hdec => ?_⟩, rfl⟩
  · simp only [parse_equipment_data]
    rw [hguard]
    simp
  · simp only [parse_equipment_data]
    rw [hguard, hdec]
    simp
  · simp only [parse_equipment_data]
    split
    · simp [hdec]
    · rfl

/-- Witness for C2's amended theorem: each path exercised at a concrete
input with the `json.loads`-consistent `sampleDecoder` (success on the
empty JSON object, failure on malformed text). -/
theorem parse_damages_overwrite_amended_witness :
    (parse_equipment_data sampleDecoder none "" "UPS / Inverter" ["rust"]
        = basic_parse_equipment "") ∧
    (((stripL "no json here".data).contains '{' && (stripL "no json here".data).contains '}')
        = false ∧
      parse_equipment_data sampleDecoder (some "no json here") "" "UPS / Inverter" ["rust"]
        = basic_parse_equipment "") ∧
    (sampleDecoder ⟨extract_json (stripL "{}".data)⟩ = some sampleDecodedRecord ∧
      ((stripL "{}".data).contains '{' && (stripL "{}".data).contains '}') = true ∧
      parse_equipment_data sampleDecoder (some "{}") "" "UPS / Inverter" ["rust"]
        = { sampleDecodedRecord with detected_damages := ["rust"] }) ∧
    (sampleDecoder ⟨extract_json (stripL "{x}".data)⟩ = none ∧
      parse_equipment_data sampleDecoder (some "{x}") "" "UPS / Inverter" ["rust"]
        = basic_parse_equipment "") ∧
    (basic_parse_equipment "").detected_damages = [] :=
  ⟨(parse_damages_overwrite_amended sampleDecoder "" "UPS / Inverter" ["rust"]).1,
    ⟨by decide,
      ((parse_damages_overwrite_amended sampleDecoder "" "UPS / Inverter" ["rust"]).2.1
        "no json here").1 (by decide)⟩,
    ⟨rfl, by decide,
      ((parse_damages_overwrite_amended sampleDecoder "" "UPS / Inverter" ["rust"]).2.1
        "{}").2.1 sampleDecodedRecord rfl (by decide)⟩,
    ⟨rfl,
      ((parse_damages_overwrite_amended sampleDecoder "" "UPS / Inverter" ["rust"]).2.1
        "{x}").2.2 rfl⟩,
    (parse_damages_overwrite_amended sampleDecoder "" "UPS / Inverter" ["rust"]).2.2⟩
